import Mathlib

/-!
Verification development for the mal_Projection interactive installation
(p5.js + Matter.js + ml5 pose estimation).

The definitions below are a shallow embedding of the JavaScript source:
`src/sketch.js` (the primary sketch) and `src/unnamed/part_000` (the
GitHub-Pages variant that contains `pickAssetBase`).  JavaScript numbers
are modelled as rationals (ℚ), `undefined`/`null` fields as `Option`,
and stateful code as explicit state passing.  Every definition is
translated from the source, with its file and line range cited.
-/

/- ============================================================
   Section 1: Physics — SpriteBody geometry and edge containment
   ============================================================ -/

/-- A 2-D vector, modelling Matter.js `{x, y}` position/velocity records. -/
structure Vec2 where
  x : ℚ
  y : ℚ
deriving DecidableEq

/-- The observable state of one `SpriteBody`: its Matter body's position and
velocity, as read and written by `bounceOffEdges` (src/sketch.js 394-413). -/
structure BodyState where
  pos : Vec2
  vel : Vec2
deriving DecidableEq

/-- Horizontal phase of `SpriteBody.bounceOffEdges` (src/sketch.js 398-404):
`if (pos.x - this.r < 0) { setPosition x := r; setVelocity vx := abs(vx) }
else if (pos.x + this.r > width) { setPosition x := width - r; setVelocity vx := -abs(vx) }`.
Matter's `Body.setPosition`/`setVelocity` mutate the body in place, so the
vertical phase afterwards sees this updated state. -/
def bounceX (w r : ℚ) (b : BodyState) : BodyState :=
  if b.pos.x - r < 0 then
    { pos := ⟨r, b.pos.y⟩, vel := ⟨|b.vel.x|, b.vel.y⟩ }
  else if b.pos.x + r > w then
    { pos := ⟨w - r, b.pos.y⟩, vel := ⟨-|b.vel.x|, b.vel.y⟩ }
  else b

/-- Vertical phase of `SpriteBody.bounceOffEdges` (src/sketch.js 406-412):
same correction against the top edge (y = 0) and bottom edge (y = height). -/
def bounceY (h r : ℚ) (b : BodyState) : BodyState :=
  if b.pos.y - r < 0 then
    { pos := ⟨b.pos.x, r⟩, vel := ⟨b.vel.x, |b.vel.y|⟩ }
  else if b.pos.y + r > h then
    { pos := ⟨b.pos.x, h - r⟩, vel := ⟨b.vel.x, -|b.vel.y|⟩ }
  else b

/-- `SpriteBody.bounceOffEdges` (src/sketch.js 394-413; textually identical in
src/unnamed/part_000 382-401): the horizontal block runs first, then the
vertical block on the already-corrected state. -/
def bounceOffEdges (w h r : ℚ) (b : BodyState) : BodyState :=
  bounceY h r (bounceX w r b)

/-- Radius computation of the `SpriteBody` constructor (src/sketch.js 369-371):
`w = max(20, img.width * scale); h = max(20, img.height * scale);
r = max(w, h) * 0.5`. -/
def spriteRadius (imgW imgH scale : ℚ) : ℚ :=
  let w := max 20 (imgW * scale)
  let h := max 20 (imgH * scale)
  max w h * (1 / 2)

/- ============================================================
   Section 2: Pose normalization and the Interaction Mapper
   ============================================================ -/

/-- A raw `position` sub-object of a keypoint (`kp.position.x` /
`kp.position.y` may each be absent). -/
structure RawPosition where
  x : Option ℚ
  y : Option ℚ
deriving DecidableEq

/-- A raw keypoint as delivered by either pose backend.  Every field may be
absent (`undefined` in JavaScript), which `Option` models.  The code reads
`name`, `part`, `x`, `y`, `position.x`, `position.y`, `confidence`, `score`
(src/sketch.js 338-359). -/
structure RawKeypoint where
  name : Option String
  part : Option String
  x : Option ℚ
  y : Option ℚ
  position : Option RawPosition
  confidence : Option ℚ
  score : Option ℚ
deriving DecidableEq

/-- A raw pose: `first.keypoints` may be absent, and an array element may be
null (the code guards with `if (!kp) continue`). -/
structure RawPose where
  keypoints : Option (List (Option RawKeypoint))
deriving DecidableEq

/-- Positions of the three pusher bodies.  `PusherBody.setPosition` is a
direct position overwrite (src/sketch.js 423-425). -/
structure Pushers where
  leftHand : ℚ × ℚ
  rightHand : ℚ × ℚ
  nose : ℚ × ℚ
deriving DecidableEq

/-- All three pushers are constructed at (0, 0) (src/sketch.js 156-158). -/
def pushersInit : Pushers :=
  { leftHand := (0, 0), rightHand := (0, 0), nose := (0, 0) }

/-- The configured confidence threshold `CFG.poseConfidence = 0.15`
(src/sketch.js 53). -/
def cfgPoseConfidence : ℚ := 15 / 100

/-- Confidence normalization (src/sketch.js 342):
`(kp.confidence !== undefined) ? kp.confidence : (kp.score !== undefined ? kp.score : 0)`. -/
def kpConf (kp : RawKeypoint) : ℚ :=
  match kp.confidence with
  | some c => c
  | none =>
    match kp.score with
    | some s => s
    | none => 0

/-- Horizontal coordinate normalization (src/sketch.js 346):
`(kp.x !== undefined) ? kp.x : (kp.position?.x ?? null)`. -/
def kpX (kp : RawKeypoint) : Option ℚ :=
  match kp.x with
  | some v => some v
  | none =>
    match kp.position with
    | some p => p.x
    | none => none

/-- Vertical coordinate normalization (src/sketch.js 347):
`(kp.y !== undefined) ? kp.y : (kp.position?.y ?? null)`. -/
def kpY (kp : RawKeypoint) : Option ℚ :=
  match kp.y with
  | some v => some v
  | none =>
    match kp.position with
    | some p => p.y
    | none => none

/-- JavaScript `a || b` on an optional string: an absent or empty (falsy)
string falls through to the alternative. -/
def jsStrOr (a : Option String) (b : String) : String :=
  match a with
  | some s => if s = "" then b else s
  | none => b

/-- Name normalization (src/sketch.js 355): `kp.name || kp.part || ""`. -/
def kpName (kp : RawKeypoint) : String :=
  jsStrOr kp.name (jsStrOr kp.part "")

/-- How far one loop iteration of `updatePushersFromPose` got with a
keypoint.  `dispatched` means control reached the name-dispatch if/else
chain (src/sketch.js 357-359), whatever the name matched. -/
inductive KpOutcome
  | nullKeypoint
  | lowConfidence
  | missingCoords
  | dispatched (name : String)
deriving DecidableEq

/-- One iteration of the keypoint loop of `updatePushersFromPose`
(src/sketch.js 338-360), instrumented with the outcome of its guard chain:
null keypoint → skip; confidence below `CFG.poseConfidence` → skip; missing
coordinates → skip; otherwise mirror the x-coordinate (`fx = width - x`,
line 351) and dispatch on the normalized name. -/
def processKeypointTraced (w θ : ℚ) (ps : Pushers) (kp : Option RawKeypoint) :
    Pushers × KpOutcome :=
  match kp with
  | none => (ps, KpOutcome.nullKeypoint)
  | some kp =>
    if kpConf kp < θ then (ps, KpOutcome.lowConfidence)
    else
      match kpX kp, kpY kp with
      | some x, some y =>
        let fx := w - x
        let name := kpName kp
        if name = "left_wrist" ∨ name = "leftWrist" then
          ({ ps with leftHand := (fx, y) }, KpOutcome.dispatched name)
        else if name = "right_wrist" ∨ name = "rightWrist" then
          ({ ps with rightHand := (fx, y) }, KpOutcome.dispatched name)
        else if name = "nose" then
          ({ ps with nose := (fx, y) }, KpOutcome.dispatched name)
        else (ps, KpOutcome.dispatched name)
      | _, _ => (ps, KpOutcome.missingCoords)

/-- `updatePushersFromPose` (src/sketch.js 332-361): bail out when the poses
slot is not an array (`!poses`), is empty, its first element is null
(`!first`), or the first pose has no `keypoints` field; otherwise fold the
keypoint loop over the first pose's keypoints. -/
def updatePushersFromPose (w θ : ℚ) (poses : Option (List (Option RawPose)))
    (ps : Pushers) : Pushers :=
  match poses with
  | none => ps
  | some [] => ps
  | some (none :: _) => ps
  | some (some first :: _) =>
    match first.keypoints with
    | none => ps
    | some kps => kps.foldl (fun acc kp => (processKeypointTraced w θ acc kp).1) ps

/-- The `detectStart` callback body for the bodyPose backend
(src/sketch.js 202-203; src/unnamed/part_000 231-233): `poses = results || []`.
The slot value is modelled as `Option (List (Option RawPose))`, where `none`
is a non-array value (null/undefined); an array — even an empty one — is
truthy in JavaScript and is stored as delivered. -/
def posesAfterDetect (results : Option (List (Option RawPose))) :
    Option (List (Option RawPose)) :=
  match results with
  | some rs => some rs
  | none => some []

/-- The concrete keypoint of the end-to-end scenario: named left_wrist at
raw (100, 200) with confidence 0.9. -/
def c6Keypoint : RawKeypoint :=
  { name := some ("left_wrist"), part := none, x := some 100, y := some 200,
    position := none, confidence := some (9 / 10), score := none }

/- ============================================================
   Section 3: Startup — pose backend selection, frame loop
   ============================================================ -/

/-- The `poseSystem` tag (src/sketch.js 14): "bodyPose", "poseNet" or "none". -/
inductive PoseSystemTag
  | bodyPose
  | poseNet
  | sysNone
deriving DecidableEq

/-- Observable outcome of `startPose` (src/sketch.js 183-247):
which backend tag was set, whether a detection callback was registered,
what the catch handler logged, and whether any exception escaped the
function (`propagatedError`). -/
structure StartPoseResult where
  poseSystem : PoseSystemTag
  detectRegistered : Bool
  loggedError : Option String
  propagatedError : Option String
deriving DecidableEq

/-- The `try` block of `startPose` (src/sketch.js 184-243), with the two
backend-availability checks `typeof ml5.bodyPose === "function"` and
`typeof ml5.poseNet === "function"` as boolean inputs.  On success it
returns the selected tag and registers the detection callback; if neither
backend exists it throws a descriptive `Error` (line 243). -/
def startPoseTryBlock (hasBodyPose hasPoseNet : Bool) :
    Except String (PoseSystemTag × Bool) :=
  if hasBodyPose then Except.ok (PoseSystemTag.bodyPose, true)
  else if hasPoseNet then Except.ok (PoseSystemTag.poseNet, true)
  else Except.error ("Neither ml5.bodyPose nor ml5.poseNet exists. Check your ml5 script include.")

/-- `startPose` in full (src/sketch.js 183-247): the catch handler
(lines 244-246) logs `"Pose init failed: " + err` via `console.error` and
does not rethrow, so no exception ever escapes the function. -/
def startPose (hasBodyPose hasPoseNet : Bool) : StartPoseResult :=
  match startPoseTryBlock hasBodyPose hasPoseNet with
  | Except.ok (sys, reg) =>
    { poseSystem := sys, detectRegistered := reg, loggedError := none, propagatedError := none }
  | Except.error e =>
    { poseSystem := PoseSystemTag.sysNone, detectRegistered := false,
      loggedError := some ("Pose init failed: " ++ e), propagatedError := none }

/-- The p5 `draw` callback is registered with the host animation loop
independently of `startPose` (src/sketch.js 250-302); only an exception
propagating out of the startup path could stop it.  The loop therefore
proceeds exactly when `startPose` propagates no error. -/
def frameLoopProceedsAfterStartPose (r : StartPoseResult) : Bool :=
  r.propagatedError.isNone

/-- The per-tick state touched by the pose-to-pusher path of `draw`. -/
structure SimState where
  frameCount : Nat
  poses : Option (List (Option RawPose))
  pushers : Pushers
deriving DecidableEq

/-- One `draw` tick restricted to the pose-to-pusher path
(src/sketch.js 250-302): it calls `updatePushersFromPose` on the current
poses slot, unconditionally, every frame. -/
def drawTick (w θ : ℚ) (s : SimState) : SimState :=
  { frameCount := s.frameCount + 1,
    poses := s.poses,
    pushers := updatePushersFromPose w θ s.poses s.pushers }

/-- Iterated frame loop: `runFrames w θ s n` is the state after `n` ticks. -/
def runFrames (w θ : ℚ) (s : SimState) : Nat → SimState
  | 0 => s
  | Nat.succ n => drawTick w θ (runFrames w θ s n)

/-- The state at frame-loop start when no detection callback ever fires:
`poses` keeps its initializer `[]` (src/sketch.js 13) and the pushers sit
at their construction position (0, 0). -/
def initialSimState : SimState :=
  { frameCount := 0, poses := some [], pushers := pushersInit }

/- ============================================================
   Section 4: Asset-base negotiation (src/unnamed/part_000)
   ============================================================ -/

/-- The known-to-exist probe file (src/unnamed/part_000 72): "Mal.png". -/
def probeFileName : String := "Mal.png"

/-- The ordered candidate list of `pickAssetBase`
(src/unnamed/part_000 65-69): site-root assets, relative assets, domain-root
assets. -/
def ghCandidates (siteRoot : String) : List String :=
  [siteRoot ++ "assets/", "./assets/", "/assets/"]

/-- The probing loop of `pickAssetBase` (src/unnamed/part_000 73-80):
`for (const base of candidates) { if (await urlExists(base + probeName)) return base; }`.
The `urlExists` HEAD request is abstracted as a boolean probe predicate. -/
def pickFirstBase (probe : String → Bool) : List String → Option String
  | [] => none
  | base :: rest =>
    if probe (base ++ probeFileName) then some base else pickFirstBase probe rest

/-- `pickAssetBase` (src/unnamed/part_000 63-84): return the first candidate
whose probe succeeds, or `candidates[0]` (the site-root base) when every
probe fails (line 83). -/
def pickAssetBase (probe : String → Bool) (siteRoot : String) : String :=
  match pickFirstBase probe (ghCandidates siteRoot) with
  | some base => base
  | none => siteRoot ++ "assets/"

/-- The sequence of URLs actually probed by the loop of `pickAssetBase`:
probing stops (short-circuits) at the first success. -/
def probeTrace (probe : String → Bool) : List String → List String
  | [] => []
  | base :: rest =>
    if probe (base ++ probeFileName) then [base ++ probeFileName]
    else (base ++ probeFileName) :: probeTrace probe rest

/- ============================================================
   Theorems (physics)
   ============================================================ -/

theorem bounceX_pos_y (w r : ℚ) (b : BodyState) : (bounceX w r b).pos.y = b.pos.y := by
  unfold bounceX; split_ifs <;> rfl

theorem bounceX_vel_y (w r : ℚ) (b : BodyState) : (bounceX w r b).vel.y = b.vel.y := by
  unfold bounceX; split_ifs <;> rfl

theorem bounceY_pos_x (h r : ℚ) (b : BodyState) : (bounceY h r b).pos.x = b.pos.x := by
  unfold bounceY; split_ifs <;> rfl

theorem bounceY_vel_x (h r : ℚ) (b : BodyState) : (bounceY h r b).vel.x = b.vel.x := by
  unfold bounceY; split_ifs <;> rfl

theorem bounceX_x_range (w r : ℚ) (b : BodyState) (hw : 2 * r ≤ w) :
    r ≤ (bounceX w r b).pos.x ∧ (bounceX w r b).pos.x ≤ w - r := by
  unfold bounceX
  split_ifs with h1 h2 <;> constructor <;> dsimp only <;> linarith

theorem bounceY_y_range (h r : ℚ) (b : BodyState) (hh : 2 * r ≤ h) :
    r ≤ (bounceY h r b).pos.y ∧ (bounceY h r b).pos.y ≤ h - r := by
  unfold bounceY
  split_ifs with h1 h2 <;> constructor <;> dsimp only <;> linarith

/-- C1 counterexample: the claim quantifies over ALL body radii, but for a
radius larger than half the viewport the correction cannot contain the body:
with width = height = 100 and r = 60, a body at (50, 50) is clamped to
x = 60, which violates `x ≤ width - radius = 40`. -/
theorem c1_counterexample_large_radius :
    ¬ ((bounceOffEdges 100 100 60 ⟨⟨50, 50⟩, ⟨0, 0⟩⟩).pos.x ≤ 100 - 60) := by
  norm_num [bounceOffEdges, bounceX, bounceY]

/-- C1 (amended): for every body whose diameter fits the viewport
(`2r ≤ width` and `2r ≤ height`), after `bounceOffEdges` the position
satisfies `r ≤ x ≤ width - r` and `r ≤ y ≤ height - r`, for all
pre-correction positions and velocities. -/
theorem c1_containment_after_bounce (w h r : ℚ) (b : BodyState)
    (hw : 2 * r ≤ w) (hh : 2 * r ≤ h) :
    r ≤ (bounceOffEdges w h r b).pos.x ∧ (bounceOffEdges w h r b).pos.x ≤ w - r ∧
    r ≤ (bounceOffEdges w h r b).pos.y ∧ (bounceOffEdges w h r b).pos.y ≤ h - r := by
  have hx := bounceX_x_range w r b hw
  have hy := bounceY_y_range h r (bounceX w r b) hh
  have hpx := bounceY_pos_x h r (bounceX w r b)
  unfold bounceOffEdges
  exact ⟨by rw [hpx]; exact hx.1, by rw [hpx]; exact hx.2, hy.1, hy.2⟩

/-- C1 witness: a body out of bounds on the left and bottom, radius 10 in a
100 × 100 viewport, ends inside `[10, 90] × [10, 90]`. -/
theorem c1_containment_witness :
    (2 * (10 : ℚ) ≤ 100) ∧
    (10 ≤ (bounceOffEdges 100 100 10 ⟨⟨-5, 105⟩, ⟨1, -1⟩⟩).pos.x ∧
     (bounceOffEdges 100 100 10 ⟨⟨-5, 105⟩, ⟨1, -1⟩⟩).pos.x ≤ 100 - 10 ∧
     10 ≤ (bounceOffEdges 100 100 10 ⟨⟨-5, 105⟩, ⟨1, -1⟩⟩).pos.y ∧
     (bounceOffEdges 100 100 10 ⟨⟨-5, 105⟩, ⟨1, -1⟩⟩).pos.y ≤ 100 - 10) :=
  ⟨by norm_num,
   c1_containment_after_bounce 100 100 10 ⟨⟨-5, 105⟩, ⟨1, -1⟩⟩ (by norm_num) (by norm_num)⟩

/-- C3 counterexample: a 10 × 10 image at scale 1/10 yields clamped
dimensions w = h = 20 and radius `max(20, 20) * 0.5 = 10`, which is
strictly below the claimed minimum of 20. -/
theorem c3_counterexample_small_image :
    spriteRadius 10 10 (1 / 10) = 10 ∧ ¬ (20 ≤ spriteRadius 10 10 (1 / 10)) := by
  constructor <;> norm_num [spriteRadius, max_def]

theorem bounceX_low (w r : ℚ) (b : BodyState) (hx : b.pos.x - r < 0) :
    bounceX w r b = ⟨⟨r, b.pos.y⟩, ⟨|b.vel.x|, b.vel.y⟩⟩ := by
  unfold bounceX; rw [if_pos hx]

theorem bounceX_high (w r : ℚ) (b : BodyState) (hx1 : ¬ b.pos.x - r < 0)
    (hx2 : b.pos.x + r > w) :
    bounceX w r b = ⟨⟨w - r, b.pos.y⟩, ⟨-|b.vel.x|, b.vel.y⟩⟩ := by
  unfold bounceX; rw [if_neg hx1, if_pos hx2]

theorem bounceY_low (h r : ℚ) (b : BodyState) (hy : b.pos.y - r < 0) :
    bounceY h r b = ⟨⟨b.pos.x, r⟩, ⟨b.vel.x, |b.vel.y|⟩⟩ := by
  unfold bounceY; rw [if_pos hy]

theorem bounceY_high (h r : ℚ) (b : BodyState) (hy1 : ¬ b.pos.y - r < 0)
    (hy2 : b.pos.y + r > h) :
    bounceY h r b = ⟨⟨b.pos.x, h - r⟩, ⟨b.vel.x, -|b.vel.y|⟩⟩ := by
  unfold bounceY; rw [if_neg hy1, if_pos hy2]

/-- C5 counterexample: the claim says the post-correction perpendicular
velocity always equals the negation of the pre-correction one.  But the code
takes the absolute value directed away from the edge: a body crossing the
left edge (x = 5, r = 10) while already moving right (vx = 3) keeps vx = 3,
which is not −3. -/
theorem c5_counterexample_abs_not_negate :
    ((5 : ℚ) - 10 < 0) ∧
    (bounceOffEdges 1000 1000 10 ⟨⟨5, 500⟩, ⟨3, 0⟩⟩).vel.x = 3 ∧
    ((3 : ℚ) ≠ -3) := by
  refine ⟨by norm_num, ?_, by norm_num⟩
  norm_num [bounceOffEdges, bounceX, bounceY]

/-- C5 (amended): when a body crosses a viewport edge, its position is
clamped tangent to that edge, and the perpendicular velocity component is
set to its absolute value directed away from that edge — which equals the
negation of the pre-correction component exactly when that component pointed
into the edge (and leaves an outward-pointing component unchanged). -/
theorem c5_edge_reflection (w h r : ℚ) (b : BodyState) :
    (b.pos.x - r < 0 →
      (bounceOffEdges w h r b).pos.x = r ∧
      (bounceOffEdges w h r b).vel.x = |b.vel.x| ∧
      (b.vel.x ≤ 0 → (bounceOffEdges w h r b).vel.x = -b.vel.x)) ∧
    (¬ b.pos.x - r < 0 → b.pos.x + r > w →
      (bounceOffEdges w h r b).pos.x = w - r ∧
      (bounceOffEdges w h r b).vel.x = -|b.vel.x| ∧
      (0 ≤ b.vel.x → (bounceOffEdges w h r b).vel.x = -b.vel.x)) ∧
    (b.pos.y - r < 0 →
      (bounceOffEdges w h r b).pos.y = r ∧
      (bounceOffEdges w h r b).vel.y = |b.vel.y| ∧
      (b.vel.y ≤ 0 → (bounceOffEdges w h r b).vel.y = -b.vel.y)) ∧
    (¬ b.pos.y - r < 0 → b.pos.y + r > h →
      (bounceOffEdges w h r b).pos.y = h - r ∧
      (bounceOffEdges w h r b).vel.y = -|b.vel.y| ∧
      (0 ≤ b.vel.y → (bounceOffEdges w h r b).vel.y = -b.vel.y)) := by
  have hpy := bounceX_pos_y w r b
  have hvy := bounceX_vel_y w r b
  have hpx := bounceY_pos_x h r (bounceX w r b)
  have hvx := bounceY_vel_x h r (bounceX w r b)
  unfold bounceOffEdges
  refine ⟨fun hx => ?_, fun hx1 hx2 => ?_, fun hy => ?_, fun hy1 hy2 => ?_⟩
  · rw [hpx, hvx, bounceX_low w r b hx]
    exact ⟨rfl, rfl, fun hv => abs_of_nonpos hv⟩
  · rw [hpx, hvx, bounceX_high w r b hx1 hx2]
    refine ⟨rfl, rfl, fun hv => ?_⟩
    dsimp only
    rw [abs_of_nonneg hv]
  · rw [bounceY_low h r (bounceX w r b) (by rw [hpy]; exact hy)]
    dsimp only
    rw [hvy]
    exact ⟨rfl, rfl, fun hv => abs_of_nonpos hv⟩
  · rw [bounceY_high h r (bounceX w r b) (by rw [hpy]; exact hy1) (by rw [hpy]; exact hy2)]
    dsimp only
    rw [hvy]
    refine ⟨rfl, rfl, fun hv => ?_⟩
    rw [abs_of_nonneg hv]

/-- C5 witness: a body at (−5, 3) with velocity (−2, 7), radius 10 in a
100 × 100 viewport, crosses the left edge and is clamped to x = 10 with its
horizontal velocity flipped from −2 to 2. -/
theorem c5_edge_reflection_witness :
    ((-5 : ℚ) - 10 < 0) ∧
    (bounceOffEdges 100 100 10 ⟨⟨-5, 3⟩, ⟨-2, 7⟩⟩).pos.x = 10 ∧
    (bounceOffEdges 100 100 10 ⟨⟨-5, 3⟩, ⟨-2, 7⟩⟩).vel.x = -(-2 : ℚ) :=
  ⟨by norm_num,
   ((c5_edge_reflection 100 100 10 ⟨⟨-5, 3⟩, ⟨-2, 7⟩⟩).1 (by norm_num)).1,
   ((c5_edge_reflection 100 100 10 ⟨⟨-5, 3⟩, ⟨-2, 7⟩⟩).1 (by norm_num)).2.2 (by norm_num)⟩

/-- C3 (amended): the scaled width and height are each clamped to a minimum
of 20 visual units, so the resulting radius `max(w, h) * 0.5` is at least 10
(not 20) for every source image and scale factor. -/
theorem c3_radius_at_least_ten (imgW imgH scale : ℚ) :
    10 ≤ spriteRadius imgW imgH scale := by
  unfold spriteRadius
  have h1 : (20 : ℚ) ≤ max 20 (imgW * scale) := le_max_left _ _
  have h2 : max 20 (imgW * scale) ≤ max (max 20 (imgW * scale)) (max 20 (imgH * scale)) :=
    le_max_left _ _
  linarith

/- ============================================================
   Theorems (pose normalization / Interaction Mapper)
   ============================================================ -/

/-- C4: the confidence comparison `conf < CFG.poseConfidence` is a strict
lower cutoff, so a keypoint strictly below the threshold is skipped without
touching any pusher, and one at or above the threshold (including exactly at
it) passes the filter and — when its coordinates are present — reaches the
name-dispatch chain. -/
theorem c4_confidence_threshold_inclusive (w θ : ℚ) (ps : Pushers) (kp : RawKeypoint) :
    (kpConf kp < θ →
      processKeypointTraced w θ ps (some kp) = (ps, KpOutcome.lowConfidence)) ∧
    (θ ≤ kpConf kp → ∀ x y, kpX kp = some x → kpY kp = some y →
      (processKeypointTraced w θ ps (some kp)).2 = KpOutcome.dispatched (kpName kp)) := by
  constructor
  · intro hlt
    simp only [processKeypointTraced]
    rw [if_pos hlt]
  · intro hge x y hx hy
    simp only [processKeypointTraced, hx, hy]
    rw [if_neg (not_lt.mpr hge)]
    split_ifs <;> rfl

/-- C4 witness: a left_wrist keypoint whose confidence is exactly the
default threshold 15/100 passes the filter and reaches the name-dispatch. -/
theorem c4_confidence_threshold_witness :
    cfgPoseConfidence ≤ kpConf
      { name := some ("left_wrist"), part := none, x := some 100, y := some 200,
        position := none, confidence := some (15 / 100), score := none } ∧
    (processKeypointTraced 1280 cfgPoseConfidence pushersInit
      (some { name := some ("left_wrist"), part := none, x := some 100, y := some 200,
              position := none, confidence := some (15 / 100), score := none })).2 =
      KpOutcome.dispatched (kpName
        { name := some ("left_wrist"), part := none, x := some 100, y := some 200,
          position := none, confidence := some (15 / 100), score := none }) :=
  ⟨by norm_num [cfgPoseConfidence, kpConf],
   (c4_confidence_threshold_inclusive 1280 cfgPoseConfidence pushersInit _).2
     (by norm_num [cfgPoseConfidence, kpConf]) 100 200 rfl rfl⟩

/-- C6: the end-to-end scenario — one pose whose keypoints contain a
left_wrist at raw (100, 200) with confidence 0.9, viewport width 1280,
threshold 0.15 — moves the left-hand pusher to (1280 − 100, 200) = (1180, 200),
and the other two pushers are untouched. -/
theorem c6_left_wrist_mirrored_scenario :
    (updatePushersFromPose 1280 cfgPoseConfidence
        (some [some { keypoints := some [some c6Keypoint] }]) pushersInit).leftHand =
      (1180, 200) ∧
    (updatePushersFromPose 1280 cfgPoseConfidence
        (some [some { keypoints := some [some c6Keypoint] }]) pushersInit).rightHand =
      (0, 0) ∧
    (updatePushersFromPose 1280 cfgPoseConfidence
        (some [some { keypoints := some [some c6Keypoint] }]) pushersInit).nose =
      (0, 0) := by
  have hname : kpName c6Keypoint = "left_wrist" := by decide
  have hconf : ¬ kpConf c6Keypoint < cfgPoseConfidence := by
    norm_num [kpConf, c6Keypoint, cfgPoseConfidence]
  have hstep : processKeypointTraced 1280 cfgPoseConfidence pushersInit (some c6Keypoint) =
      ({ pushersInit with leftHand := (1280 - 100, 200) },
        KpOutcome.dispatched ("left_wrist")) := by
    have hx : kpX c6Keypoint = some 100 := rfl
    have hy : kpY c6Keypoint = some 200 := rfl
    simp only [processKeypointTraced, hx, hy]
    rw [if_neg hconf, hname]
    rw [if_pos (Or.inl rfl)]
  simp only [updatePushersFromPose, List.foldl, hstep]
  norm_num [pushersInit]

/-- C8: when the latest detection result holds no usable pose — the slot is
not an array, the pose list is empty, its first element is null, or the
first pose has no keypoints field — `updatePushersFromPose` returns with all
three pusher positions exactly unchanged. -/
theorem c8_no_usable_pose_no_update (w θ : ℚ) (ps : Pushers) :
    updatePushersFromPose w θ none ps = ps ∧
    updatePushersFromPose w θ (some []) ps = ps ∧
    (∀ rest, updatePushersFromPose w θ (some (none :: rest)) ps = ps) ∧
    (∀ p rest, p.keypoints = none →
      updatePushersFromPose w θ (some (some p :: rest)) ps = ps) := by
    refine ⟨rfl, rfl, fun rest => rfl, fun p rest hp => ?_⟩
    simp only [updatePushersFromPose, hp]

/-- C8 witness: a first pose with no keypoints field leaves the initial
pushers unchanged. -/
theorem c8_no_usable_pose_witness :
    updatePushersFromPose 1280 cfgPoseConfidence
      (some [some { keypoints := none }]) pushersInit = pushersInit :=
  (c8_no_usable_pose_no_update 1280 cfgPoseConfidence pushersInit).2.2.2
    { keypoints := none } [] rfl

/-- C9: a keypoint carrying neither a confidence nor a score field is
normalized to confidence 0, so for any positive threshold it is dropped by
the confidence filter and updates no pusher. -/
theorem c9_confidenceless_keypoint_dropped (w θ : ℚ) (ps : Pushers) (kp : RawKeypoint)
    (hc : kp.confidence = none) (hs : kp.score = none) (hθ : 0 < θ) :
    kpConf kp = 0 ∧
    processKeypointTraced w θ ps (some kp) = (ps, KpOutcome.lowConfidence) := by
  have hconf : kpConf kp = 0 := by simp only [kpConf, hc, hs]
  refine ⟨hconf, ?_⟩
  simp only [processKeypointTraced]
  rw [hconf, if_pos hθ]

/-- C9 witness: a nose keypoint with coordinates but neither confidence nor
score is dropped at the default threshold 0.15. -/
theorem c9_confidenceless_keypoint_witness :
    kpConf { name := some ("nose"), part := none, x := some 5, y := some 6,
             position := none, confidence := none, score := none } = 0 ∧
    processKeypointTraced 1280 cfgPoseConfidence pushersInit
      (some { name := some ("nose"), part := none, x := some 5, y := some 6,
              position := none, confidence := none, score := none }) =
      (pushersInit, KpOutcome.lowConfidence) :=
  c9_confidenceless_keypoint_dropped 1280 cfgPoseConfidence pushersInit
    { name := some ("nose"), part := none, x := some 5, y := some 6,
      position := none, confidence := none, score := none }
    rfl rfl (by norm_num [cfgPoseConfidence])

/-- C10: after the bodyPose `detectStart` callback runs, the shared poses
slot always holds an array: a null/undefined result is replaced by the
empty array, and an actual result array (empty or not) is stored as is. -/
theorem c10_poses_slot_always_array (results : Option (List (Option RawPose))) :
    (posesAfterDetect results).isSome = true ∧
    posesAfterDetect none = some [] ∧
    (∀ l, posesAfterDetect (some l) = some l) := by
  refine ⟨?_, rfl, fun l => rfl⟩
  cases results <;> rfl

/- ============================================================
   Theorems (startup / negotiation)
   ============================================================ -/

/-- C2 counterexample: with neither ml5.bodyPose nor ml5.poseNet
constructable, `startPose` swallows its own descriptive error (the catch
handler only logs), no exception escapes, and the frame loop proceeds —
three ticks later the frame counter reads 3.  The claimed abort does not
happen. -/
theorem c2_counterexample_no_abort :
    (startPose false false).propagatedError = none ∧
    frameLoopProceedsAfterStartPose (startPose false false) = true ∧
    (runFrames 1280 cfgPoseConfidence initialSimState 3).frameCount = 3 := by
  refine ⟨rfl, rfl, rfl⟩

/-- C2 (amended): if neither pose backend is constructable, `startPose`
raises a descriptive error internally but its own catch handler logs it and
returns normally; startup completes with `poseSystem = "none"` and no
detection callback registered, and the frame loop proceeds in a degraded
mode — every tick advances the frame counter while the poses slot stays
empty and the pushers never move from (0, 0). -/
theorem c2_degraded_mode_continues :
    (startPose false false).poseSystem = PoseSystemTag.sysNone ∧
    (startPose false false).loggedError =
      some ("Pose init failed: Neither ml5.bodyPose nor ml5.poseNet exists. Check your ml5 script include.") ∧
    (startPose false false).detectRegistered = false ∧
    (startPose false false).propagatedError = none ∧
    frameLoopProceedsAfterStartPose (startPose false false) = true ∧
    (∀ n, (runFrames 1280 cfgPoseConfidence initialSimState n).frameCount = n ∧
          (runFrames 1280 cfgPoseConfidence initialSimState n).poses = some [] ∧
          (runFrames 1280 cfgPoseConfidence initialSimState n).pushers = pushersInit) := by
  refine ⟨rfl, rfl, rfl, rfl, rfl, fun n => ?_⟩
  induction n with
  | zero => exact ⟨rfl, rfl, rfl⟩
  | succ n ih =>
    refine ⟨?_, ?_, ?_⟩
    · show (drawTick _ _ _).frameCount = n + 1
      simp [drawTick, ih.1]
    · show (drawTick _ _ _).poses = some []
      simp [drawTick, ih.2.1]
    · show (drawTick _ _ _).pushers = pushersInit
      simp [drawTick, ih.2.1, ih.2.2, updatePushersFromPose]

theorem pickFirstBase_of_prefix_fail (probe : String → Bool) (pre : List String)
    (b : String) (post : List String)
    (hpre : ∀ c ∈ pre, probe (c ++ probeFileName) = false)
    (hb : probe (b ++ probeFileName) = true) :
    pickFirstBase probe (pre ++ b :: post) = some b := by
  induction pre with
  | nil => simp [pickFirstBase, hb]
  | cons a pre ih =>
    have ha := hpre a (by simp)
    simp only [List.cons_append, pickFirstBase, ha]
    exact ih (fun c hc => hpre c (by simp [hc]))

theorem probeTrace_of_prefix_fail (probe : String → Bool) (pre : List String)
    (b : String) (post : List String)
    (hpre : ∀ c ∈ pre, probe (c ++ probeFileName) = false)
    (hb : probe (b ++ probeFileName) = true) :
    probeTrace probe (pre ++ b :: post) =
      pre.map (fun c => c ++ probeFileName) ++ [b ++ probeFileName] := by
  induction pre with
  | nil => simp [probeTrace, hb]
  | cons a pre ih =>
    have ha := hpre a (by simp)
    simp only [List.cons_append, probeTrace, ha, List.map_cons]
    simp only [Bool.false_eq_true, if_false, List.cons_append, List.append_eq]
    rw [ih (fun c hc => hpre c (by simp [hc]))]

theorem pickFirstBase_all_fail (probe : String → Bool) (l : List String)
    (hall : ∀ c ∈ l, probe (c ++ probeFileName) = false) :
    pickFirstBase probe l = none := by
  induction l with
  | nil => rfl
  | cons a l ih =>
    have ha := hall a (by simp)
    simp only [pickFirstBase, ha]
    simp only [Bool.false_eq_true, if_false]
    exact ih (fun c hc => hall c (by simp [hc]))

theorem probeTrace_all_fail (probe : String → Bool) (l : List String)
    (hall : ∀ c ∈ l, probe (c ++ probeFileName) = false) :
    probeTrace probe l = l.map (fun c => c ++ probeFileName) := by
  induction l with
  | nil => rfl
  | cons a l ih =>
    have ha := hall a (by simp)
    simp only [probeTrace, ha, List.map_cons]
    simp only [Bool.false_eq_true, if_false, List.append_eq]
    rw [ih (fun c hc => hall c (by simp [hc]))]

/-- C7: `pickAssetBase` probes the ordered candidate list sequentially at
`candidate + probeFileName`, returns the first candidate whose probe
succeeds — the probe trace shows no later candidate is ever probed after a
success — and when every probe fails it returns the first candidate
(`siteRoot ++ "assets/"`, the head of the list) after probing all three. -/
theorem c7_pickAssetBase_first_success (probe : String → Bool) (siteRoot : String) :
    (∀ pre b post,
      ghCandidates siteRoot = pre ++ b :: post →
      (∀ c ∈ pre, probe (c ++ probeFileName) = false) →
      probe (b ++ probeFileName) = true →
      pickAssetBase probe siteRoot = b ∧
      probeTrace probe (ghCandidates siteRoot) =
        pre.map (fun c => c ++ probeFileName) ++ [b ++ probeFileName]) ∧
    ((∀ c ∈ ghCandidates siteRoot, probe (c ++ probeFileName) = false) →
      pickAssetBase probe siteRoot = siteRoot ++ "assets/" ∧
      probeTrace probe (ghCandidates siteRoot) =
        (ghCandidates siteRoot).map (fun c => c ++ probeFileName)) := by
  constructor
  · intro pre b post hdecomp hpre hb
    constructor
    · unfold pickAssetBase
      rw [hdecomp, pickFirstBase_of_prefix_fail probe pre b post hpre hb]
    · rw [hdecomp]
      exact probeTrace_of_prefix_fail probe pre b post hpre hb
  · intro hall
    constructor
    · unfold pickAssetBase
      rw [pickFirstBase_all_fail probe _ hall]
    · exact probeTrace_all_fail probe _ hall

/-- C7 witness: with a probe that only succeeds on "./assets/Mal.png" and
site root "/mal_Projection/", negotiation returns the second candidate
"./assets/" and the trace shows exactly two probes — the third candidate is
never probed. -/
theorem c7_pickAssetBase_witness :
    pickAssetBase (fun s => s == "./assets/Mal.png") ("/mal_Projection/") = "./assets/" ∧
    probeTrace (fun s => s == "./assets/Mal.png") (ghCandidates ("/mal_Projection/")) =
      ["/mal_Projection/assets/Mal.png", "./assets/Mal.png"] := by
  have h := (c7_pickAssetBase_first_success (fun s => s == "./assets/Mal.png")
      ("/mal_Projection/")).1
    ["/mal_Projection/assets/"] ("./assets/") ["/assets/"]
    (by decide) (by decide) (by decide)
  exact ⟨h.1, by rw [h.2]; rfl⟩
